import Mathlib

/-!
Shallow embedding of the AMA Northstowe chat endpoint: the fixed-window
rate limiter, the relevance filter (the simple variant from
src/pages/api/chat.ts and the extended variant from src/pages/index.tsx),
the query enhancer, and the request handler's response mapping.
JS strings are modelled as Lean strings, with character-list helpers for
toLowerCase / includes / trim; the mutable rate-limit map is passed
explicitly as an association list; Date.now() is an explicit Nat argument.
-/

/-- JS String.prototype.toLowerCase on a character list (the sources only use
ASCII keywords, where Char.toLower agrees with JS). -/
def lowerL (l : List Char) : List Char := l.map Char.toLower

/-- Is the first list a prefix of the second (by character equality)? -/
def isPrefixL : List Char → List Char → Bool
  | [], _ => true
  | _ :: _, [] => false
  | a :: as, b :: bs => decide (a = b) && isPrefixL as bs

/-- Is the needle a contiguous sublist of the haystack? -/
def isInfixL (needle : List Char) : List Char → Bool
  | [] => isPrefixL needle []
  | c :: cs => isPrefixL needle (c :: cs) || isInfixL needle cs

/-- JS haystack.includes(needle): substring containment. -/
def includesL (haystack needle : List Char) : Bool := isInfixL needle haystack

/-- includes at the String level. -/
def strIncludes (haystack needle : String) : Bool := includesL haystack.data needle.data

/-- JS whitespace, for String.prototype.trim (the ASCII part). -/
def isJsSpace (c : Char) : Bool := c = ' ' || c = '\t' || c = '\n' || c = '\r'

/-- JS String.prototype.trim: strip whitespace from both ends. -/
def jsTrim (l : List Char) : List Char :=
  ((l.dropWhile isJsSpace).reverse.dropWhile isJsSpace).reverse

/-- Does one of the alternatives match at the head of the list? -/
def altsAt (alts : List (List Char)) (s : List Char) : Bool :=
  alts.any (fun a => isPrefixL a s)

/-- Search for an alternative at or after the current position, crossing only
non-newline characters (the JS regex dot). -/
def dotStarSearch (alts : List (List Char)) : List Char → Bool
  | [] => altsAt alts []
  | c :: cs => altsAt alts (c :: cs) || (decide (c ≠ '\n') && dotStarSearch alts cs)

/-- JS RegExp.prototype.test for a pattern of the shape
/kw.*(alt1|alt2|alt3)/ : some occurrence of kw followed, with no newline in
between, by some occurrence of an alternative. Case-insensitivity (the i
flag) is obtained by running it on the lowercased input. -/
def patTest (kw : List Char) (alts : List (List Char)) : List Char → Bool
  | [] => isPrefixL kw ([] : List Char) && dotStarSearch alts []
  | c :: cs =>
      (isPrefixL kw (c :: cs) && dotStarSearch alts ((c :: cs).drop kw.length))
      || patTest kw alts cs

/-- RATE_LIMIT = 5 requests per window (src/pages/api/chat.ts line 19). -/
def RATE_LIMIT : Nat := 5

/-- RATE_WINDOW = 5 * 60 * 1000 ms (src/pages/api/chat.ts line 20). -/
def RATE_WINDOW : Nat := 5 * 60 * 1000

/-- One value of the rate-limit map: { count, resetTime }. -/
structure RateEntry where
  count : Nat
  resetTime : Nat
deriving DecidableEq

/-- The JS Map of the rate limiter, as an insertion-ordered association list. -/
abbrev RateMap := List (String × RateEntry)

/-- JS Map.prototype.get. -/
def mapGet (m : RateMap) (k : String) : Option RateEntry :=
  match m with
  | [] => none
  | (k', v) :: rest => if k' = k then some v else mapGet rest k

/-- JS Map.prototype.set: replace the binding in place, or append a new one. -/
def mapSet (m : RateMap) (k : String) (v : RateEntry) : RateMap :=
  match m with
  | [] => [(k, v)]
  | (k', v') :: rest => if k' = k then (k, v) :: rest else (k', v') :: mapSet rest k v

/-- isRateLimited (src/pages/api/chat.ts lines 29-49), with Date.now() and the
module-level map passed explicitly; returns the boolean together with the
updated map. -/
def isRateLimited (key : String) (now : Nat) (m : RateMap) : Bool × RateMap :=
  match mapGet m key with
  | none => (false, mapSet m key ⟨1, now + RATE_WINDOW⟩)
  | some userLimit =>
    if now > userLimit.resetTime then
      (false, mapSet m key ⟨1, now + RATE_WINDOW⟩)
    else if userLimit.count ≥ RATE_LIMIT then
      (true, m)
    else
      (false, mapSet m key ⟨userLimit.count + 1, userLimit.resetTime⟩)

/-- A sequence of isRateLimited calls for one key at the given times,
threading the map; returns the list of results and the final map. -/
def callSeq (key : String) (m : RateMap) : List Nat → List Bool × RateMap
  | [] => ([], m)
  | t :: ts =>
      let r := isRateLimited key t m
      let rest := callSeq key r.2 ts
      (r.1 :: rest.1, rest.2)

/-- Every entry of the map has 1 ≤ count ≤ RATE_LIMIT. -/
def countInvB (m : RateMap) : Bool :=
  m.all (fun p => decide (1 ≤ p.2.count) && decide (p.2.count ≤ RATE_LIMIT))

/-- If the key's entry is inside its window (now ≤ resetTime), the call leaves
its resetTime unchanged: the window never slides. -/
def resetNotSlid (key : String) (now : Nat) (m : RateMap) : Bool :=
  match mapGet m key, mapGet (isRateLimited key now m).2 key with
  | some e, some e2 => !(decide (now ≤ e.resetTime)) || decide (e2.resetTime = e.resetTime)
  | some e, none => !(decide (now ≤ e.resetTime))
  | none, _ => true

namespace Chat

/-- The keyword list of isNorthstoweRelated in src/pages/api/chat.ts. -/
def northstoweKeywords : List String :=
  ["northstowe", "north stowe", "cambridge", "cambridgeshire",
   "town council", "community", "local", "neighbourhood",
   "gp", "doctor", "surgery", "medical", "health",
   "school", "education", "primary school", "secondary school",
   "transport", "bus", "train", "cycling", "walking",
   "shops", "shopping", "supermarket", "tesco", "pharmacy",
   "library", "community centre", "church", "facilities",
   "housing", "development", "planning", "construction",
   "park", "green space", "recreation", "sport",
   "police", "fire service", "emergency services"]

/-- isNorthstoweRelated from src/pages/api/chat.ts lines 51-76. -/
def isNorthstoweRelated (query : String) : Bool :=
  let lowerQuery := lowerL query.data
  if includesL lowerQuery "northstowe".data || includesL lowerQuery "north stowe".data then
    true
  else
    northstoweKeywords.any (fun keyword => includesL lowerQuery (lowerL keyword.data))

/-- enhanceQueryForNorthstowe from src/pages/api/chat.ts lines 78-82. -/
def enhanceQueryForNorthstowe (query : String) : String :=
  query ++ " in Northstowe, Cambridgeshire, UK. Northstowe is a new town development in South Cambridgeshire."

end Chat

namespace Index

/-- The keyword list of isNorthstoweRelated in src/pages/index.tsx lines
335-351 (the extended variant; the source lists development twice). -/
def northstoweKeywords : List String :=
  ["northstowe", "north stowe", "cambridge", "cambridgeshire",
   "town council", "community", "local", "neighbourhood",
   "gp", "doctor", "surgery", "medical", "health",
   "school", "education", "primary school", "secondary school",
   "transport", "bus", "train", "cycling", "walking",
   "shops", "shopping", "supermarket", "tesco", "pharmacy",
   "library", "community centre", "church", "facilities",
   "housing", "development", "planning", "construction",
   "park", "green space", "recreation", "sport",
   "police", "fire service", "emergency services",
   "unity centre", "unity center", "cabin", "community hub",
   "cycle path", "guided busway", "phase", "development",
   "bin collection", "bins", "rubbish", "recycling", "waste",
   "refuse", "collection day", "black bin", "blue bin", "green bin",
   "heron road", "road", "street", "avenue", "close", "way"]

/-- The follow-up keyword list of src/pages/index.tsx lines 353-361. -/
def followUpKeywords : List String :=
  ["when", "where", "how", "what", "who", "why", "which",
   "opening", "available", "cost", "price", "time", "date",
   "contact", "phone", "email", "address", "location",
   "more information", "details", "update", "status",
   "it", "this", "that", "they", "there", "here",
   "also", "additionally", "furthermore", "moreover",
   "nearest", "closest", "best", "recommended"]

/-- The keyword stage of the filter: some Northstowe keyword occurs in the
lowercased query. -/
def containsNorthstoweKeyword (query : String) : Bool :=
  northstoweKeywords.any (fun keyword => includesL (lowerL query.data) (lowerL keyword.data))

/-- The follow-up stage of the filter: some follow-up keyword occurs in the
lowercased query. -/
def containsFollowUpKeyword (query : String) : Bool :=
  followUpKeywords.any (fun keyword => includesL (lowerL query.data) (lowerL keyword.data))

/-- The localServicePatterns of src/pages/index.tsx lines 386-393, each as the
leading literal together with its alternatives. -/
def localServicePatterns : List (String × List String) :=
  [("when", ["open", "close", "available"]),
   ("where", ["is", "are", "can"]),
   ("how", ["get", "reach", "contact"]),
   ("what", ["time", "day", "hour"]),
   ("is", ["open", "available", "ready"]),
   ("are", ["there", "any", "open"])]

/-- Does some local-service regex pattern match the query (each carries the i
flag, so the query is lowercased)? -/
def anyLocalServicePattern (query : String) : Bool :=
  localServicePatterns.any (fun p =>
    patTest p.1.data (p.2.map String.data) (lowerL query.data))

/-- isNorthstoweRelated from src/pages/index.tsx lines 334-400: direct mention,
then keywords, then follow-up keywords when the trimmed query has at most 50
characters, then the regex patterns. -/
def isNorthstoweRelated (query : String) : Bool :=
  if includesL (lowerL query.data) "northstowe".data
      || includesL (lowerL query.data) "north stowe".data then
    true
  else if containsNorthstoweKeyword query then
    true
  else if decide ((jsTrim query.data).length ≤ 50) && containsFollowUpKeyword query then
    true
  else if anyLocalServicePattern query then
    true
  else
    false

/-- enhanceQueryForNorthstowe from src/pages/index.tsx lines 402-428, with the
current date string (new Date().toLocaleDateString) passed explicitly. -/
def enhanceQueryForNorthstowe (currentDate : String) (query : String) : String :=
  if includesL (lowerL query.data) "meeting".data
      || includesL (lowerL query.data) "council".data then
    "site:northstowetowncouncil.gov.uk Northstowe Town Council meeting agenda September 2024 2025 \"23 September\" \"23rd September\" \"September 23\" next upcoming meeting after " ++ currentDate
  else if includesL (lowerL query.data) "bin".data
      || includesL (lowerL query.data) "collection".data
      || includesL (lowerL query.data) "waste".data
      || includesL (lowerL query.data) "rubbish".data then
    query ++ " Northstowe bin collection schedule next Friday"
  else if includesL (lowerL query.data) "bus".data
      || includesL (lowerL query.data) "transport".data
      || includesL (lowerL query.data) "travel".data then
    query ++ " Northstowe bus transport timetable route"
  else if includesL (lowerL query.data) "open".data
      || includesL (lowerL query.data) "centre".data
      || includesL (lowerL query.data) "center".data
      || includesL (lowerL query.data) "facility".data then
    query ++ " Northstowe opening times construction timeline"
  else
    query ++ " in Northstowe, Cambridgeshire, UK. Find specific current information, dates, times, schedules, contact details."

end Index

/-- The message field of the request body: absent, a string, or present with a
non-string value. -/
inductive BodyMessage where
  | missing
  | str (s : String)
  | nonString
deriving DecidableEq

/-- The outcome of the axios call to the upstream API: a response whose first
choice's content is the given option, an axios error carrying the upstream
HTTP status when a response arrived, or a non-axios error. -/
inductive UpstreamOutcome where
  | success (content : Option String)
  | httpError (status : Option Nat)
  | nonAxiosError
deriving DecidableEq

/-- Is the outcome a failure (anything thrown by the axios call)? -/
def UpstreamOutcome.isFailure : UpstreamOutcome → Bool
  | .success _ => false
  | _ => true

/-- The handler's HTTP response together with how many upstream calls the
request made and the rate-limit map it leaves behind. -/
structure HResult where
  status : Nat
  error : Option String
  response : Option String
  rateLimited : Bool
  notRelated : Bool
  upstreamCalls : Nat
  state : RateMap
deriving DecidableEq

namespace Chat

/-- The canned refusal text of src/pages/api/chat.ts lines 109-112. -/
def notRelatedResponse : String :=
  "I'm sorry, I can only answer questions related to Northstowe. Please ask me about local services, facilities, developments, or community information in Northstowe."

/-- The handler of src/pages/api/chat.ts lines 84-194: method check, rate
gate, body validation, relevance filter, credential check, upstream call and
error translation, with the environment (key, time, map, body, credential,
upstream outcome) passed explicitly. -/
def handler (method : String) (key : String) (now : Nat) (m : RateMap)
    (message : BodyMessage) (apiKey : Option String) (upstream : UpstreamOutcome) : HResult :=
  if method ≠ "POST" then
    ⟨405, some "Method not allowed", none, false, false, 0, m⟩
  else
    let g := isRateLimited key now m
    if g.1 then
      ⟨429, some "Too many requests. Please wait a moment before asking another question.",
       none, true, false, 0, g.2⟩
    else
      match message with
      | .str s =>
        if s.isEmpty then
          ⟨400, some "Message is required", none, false, false, 0, g.2⟩
        else if ! isNorthstoweRelated s then
          ⟨200, none, some notRelatedResponse, false, true, 0, g.2⟩
        else
          match apiKey with
          | none => ⟨500, some "API key not configured", none, false, false, 0, g.2⟩
          | some _ =>
            match upstream with
            | .success (some content) =>
                if content.isEmpty then
                  ⟨500, some "No response from AI service", none, false, false, 1, g.2⟩
                else
                  ⟨200, none, some content, false, false, 1, g.2⟩
            | .success none =>
                ⟨500, some "No response from AI service", none, false, false, 1, g.2⟩
            | .httpError (some st) =>
                if st = 401 then
                  ⟨500, some "API authentication failed - check your Perplexity API key",
                   none, false, false, 1, g.2⟩
                else if st = 429 then
                  ⟨429, some "API rate limit exceeded. Please try again later.",
                   none, false, false, 1, g.2⟩
                else if st = 403 then
                  ⟨500, some "API access forbidden - check your Perplexity API key permissions",
                   none, false, false, 1, g.2⟩
                else
                  ⟨500, some "Failed to get response. Please try again.", none, false, false, 1, g.2⟩
            | .httpError none =>
                ⟨500, some "Failed to get response. Please try again.", none, false, false, 1, g.2⟩
            | .nonAxiosError =>
                ⟨500, some "Failed to get response. Please try again.", none, false, false, 1, g.2⟩
      | _ => ⟨400, some "Message is required", none, false, false, 0, g.2⟩

/-- The spec's upstream-failure status mapping, stated from its words: an
upstream 401 or 403 becomes a 500, an upstream 429 a 429, every other failure
a generic 500 (spec section 4.4 step 7). -/
def specFailureStatus : UpstreamOutcome → Nat
  | .httpError (some st) => if st = 401 then 500 else if st = 403 then 500
      else if st = 429 then 429 else 500
  | _ => 500

/-- The spec's upstream-failure message mapping: an auth or permission message
for 401 and 403, a rate-limit message for 429, a generic message otherwise. -/
def specFailureError : UpstreamOutcome → String
  | .httpError (some st) =>
      if st = 401 then "API authentication failed - check your Perplexity API key"
      else if st = 403 then "API access forbidden - check your Perplexity API key permissions"
      else if st = 429 then "API rate limit exceeded. Please try again later."
      else "Failed to get response. Please try again."
  | _ => "Failed to get response. Please try again."

end Chat

theorem mapGet_mapSet_self (m : RateMap) (k : String) (v : RateEntry) :
    mapGet (mapSet m k v) k = some v := by
  induction m with
  | nil => simp [mapGet, mapSet]
  | cons p rest ih =>
      obtain ⟨k', v'⟩ := p
      by_cases h : k' = k
      · simp [mapGet, mapSet, h]
      · simp [mapGet, mapSet, h, ih]

theorem isRateLimited_first (key : String) (now : Nat) (m : RateMap)
    (h : mapGet m key = none) :
    isRateLimited key now m = (false, mapSet m key ⟨1, now + RATE_WINDOW⟩) := by
  simp [isRateLimited, h]

theorem isRateLimited_reset (key : String) (now : Nat) (m : RateMap) (e : RateEntry)
    (h : mapGet m key = some e) (hr : now > e.resetTime) :
    isRateLimited key now m = (false, mapSet m key ⟨1, now + RATE_WINDOW⟩) := by
  simp [isRateLimited, h, hr]

theorem isRateLimited_block (key : String) (now : Nat) (m : RateMap) (e : RateEntry)
    (h : mapGet m key = some e) (hr : ¬ now > e.resetTime) (hc : RATE_LIMIT ≤ e.count) :
    isRateLimited key now m = (true, m) := by
  simp [isRateLimited, h, hr, hc]

theorem isRateLimited_incr (key : String) (now : Nat) (m : RateMap) (e : RateEntry)
    (h : mapGet m key = some e) (hr : ¬ now > e.resetTime) (hc : e.count < RATE_LIMIT) :
    isRateLimited key now m = (false, mapSet m key ⟨e.count + 1, e.resetTime⟩) := by
  simp [isRateLimited, h, hr, Nat.not_le.mpr hc]

/-- C1: starting from a map without the key, six calls at nondecreasing times
inside one RATE_WINDOW give allowed five times and then blocked; and a call
made strictly after an existing entry's resetTime is allowed and replaces the
entry with count 1 and resetTime now + RATE_WINDOW. -/
theorem rateLimiter_sixth_blocked_and_window_reset
    (key : String) (m0 m : RateMap) (t1 t2 t3 t4 t5 t6 now : Nat) (e : RateEntry)
    (h0 : mapGet m0 key = none)
    (h12 : t1 ≤ t2) (h23 : t2 ≤ t3) (h34 : t3 ≤ t4) (h45 : t4 ≤ t5) (h56 : t5 ≤ t6)
    (hwin : t6 ≤ t1 + RATE_WINDOW)
    (hm : mapGet m key = some e) (hafter : now > e.resetTime) :
    (callSeq key m0 [t1, t2, t3, t4, t5, t6]).1 = [false, false, false, false, false, true]
    ∧ isRateLimited key now m = (false, mapSet m key ⟨1, now + RATE_WINDOW⟩)
    ∧ mapGet (isRateLimited key now m).2 key = some ⟨1, now + RATE_WINDOW⟩ := by
  have ht2 : t2 ≤ t1 + RATE_WINDOW :=
    le_trans h23 (le_trans h34 (le_trans h45 (le_trans h56 hwin)))
  have ht3 : t3 ≤ t1 + RATE_WINDOW := le_trans h34 (le_trans h45 (le_trans h56 hwin))
  have ht4 : t4 ≤ t1 + RATE_WINDOW := le_trans h45 (le_trans h56 hwin)
  have ht5 : t5 ≤ t1 + RATE_WINDOW := le_trans h56 hwin
  have h1 : isRateLimited key t1 m0 = (false, mapSet m0 key ⟨1, t1 + RATE_WINDOW⟩) :=
    isRateLimited_first key t1 m0 h0
  have h2 : isRateLimited key t2 (mapSet m0 key ⟨1, t1 + RATE_WINDOW⟩)
      = (false, mapSet (mapSet m0 key ⟨1, t1 + RATE_WINDOW⟩) key ⟨2, t1 + RATE_WINDOW⟩) :=
    isRateLimited_incr key t2 _ ⟨1, t1 + RATE_WINDOW⟩ (mapGet_mapSet_self m0 key _)
      (Nat.not_lt.mpr ht2) (show (1:Nat) < 5 by decide)
  have h3 : isRateLimited key t3
        (mapSet (mapSet m0 key ⟨1, t1 + RATE_WINDOW⟩) key ⟨2, t1 + RATE_WINDOW⟩)
      = (false, mapSet (mapSet (mapSet m0 key ⟨1, t1 + RATE_WINDOW⟩) key ⟨2, t1 + RATE_WINDOW⟩)
          key ⟨3, t1 + RATE_WINDOW⟩) :=
    isRateLimited_incr key t3 _ ⟨2, t1 + RATE_WINDOW⟩ (mapGet_mapSet_self _ key _)
      (Nat.not_lt.mpr ht3) (show (2:Nat) < 5 by decide)
  have h4 : isRateLimited key t4
        (mapSet (mapSet (mapSet m0 key ⟨1, t1 + RATE_WINDOW⟩) key ⟨2, t1 + RATE_WINDOW⟩)
          key ⟨3, t1 + RATE_WINDOW⟩)
      = (false, mapSet (mapSet (mapSet (mapSet m0 key ⟨1, t1 + RATE_WINDOW⟩) key
          ⟨2, t1 + RATE_WINDOW⟩) key ⟨3, t1 + RATE_WINDOW⟩) key ⟨4, t1 + RATE_WINDOW⟩) :=
    isRateLimited_incr key t4 _ ⟨3, t1 + RATE_WINDOW⟩ (mapGet_mapSet_self _ key _)
      (Nat.not_lt.mpr ht4) (show (3:Nat) < 5 by decide)
  have h5 : isRateLimited key t5
        (mapSet (mapSet (mapSet (mapSet m0 key ⟨1, t1 + RATE_WINDOW⟩) key
          ⟨2, t1 + RATE_WINDOW⟩) key ⟨3, t1 + RATE_WINDOW⟩) key ⟨4, t1 + RATE_WINDOW⟩)
      = (false, mapSet (mapSet (mapSet (mapSet (mapSet m0 key ⟨1, t1 + RATE_WINDOW⟩) key
          ⟨2, t1 + RATE_WINDOW⟩) key ⟨3, t1 + RATE_WINDOW⟩) key ⟨4, t1 + RATE_WINDOW⟩)
          key ⟨5, t1 + RATE_WINDOW⟩) :=
    isRateLimited_incr key t5 _ ⟨4, t1 + RATE_WINDOW⟩ (mapGet_mapSet_self _ key _)
      (Nat.not_lt.mpr ht5) (show (4:Nat) < 5 by decide)
  have h6 : isRateLimited key t6
        (mapSet (mapSet (mapSet (mapSet (mapSet m0 key ⟨1, t1 + RATE_WINDOW⟩) key
          ⟨2, t1 + RATE_WINDOW⟩) key ⟨3, t1 + RATE_WINDOW⟩) key ⟨4, t1 + RATE_WINDOW⟩)
          key ⟨5, t1 + RATE_WINDOW⟩)
      = (true, mapSet (mapSet (mapSet (mapSet (mapSet m0 key ⟨1, t1 + RATE_WINDOW⟩) key
          ⟨2, t1 + RATE_WINDOW⟩) key ⟨3, t1 + RATE_WINDOW⟩) key ⟨4, t1 + RATE_WINDOW⟩)
          key ⟨5, t1 + RATE_WINDOW⟩) :=
    isRateLimited_block key t6 _ ⟨5, t1 + RATE_WINDOW⟩ (mapGet_mapSet_self _ key _)
      (Nat.not_lt.mpr hwin) (show (5:Nat) ≤ 5 by decide)
  refine ⟨?_, isRateLimited_reset key now m e hm hafter, ?_⟩
  · simp only [callSeq, h1, h2, h3, h4, h5, h6]
  · rw [isRateLimited_reset key now m e hm hafter]
    exact mapGet_mapSet_self m key _

theorem rateLimiter_sixth_blocked_and_window_reset_witness :
    (callSeq "1.2.3.4" ([] : RateMap) [10, 11, 12, 13, 14, 15]).1
      = [false, false, false, false, false, true]
    ∧ isRateLimited "1.2.3.4" 400001 [("1.2.3.4", ⟨3, 400000⟩)]
      = (false, mapSet [("1.2.3.4", ⟨3, 400000⟩)] "1.2.3.4" ⟨1, 400001 + RATE_WINDOW⟩)
    ∧ mapGet (isRateLimited "1.2.3.4" 400001 [("1.2.3.4", ⟨3, 400000⟩)]).2 "1.2.3.4"
      = some ⟨1, 400001 + RATE_WINDOW⟩ :=
  rateLimiter_sixth_blocked_and_window_reset "1.2.3.4" [] [("1.2.3.4", ⟨3, 400000⟩)]
    10 11 12 13 14 15 400001 ⟨3, 400000⟩ (by decide) (by decide) (by decide) (by decide)
    (by decide) (by decide) (by decide) (by decide) (by decide)

/-- C8: when the key's entry exists, is inside its window (now ≤ resetTime)
and has count ≥ RATE_LIMIT, isRateLimited returns blocked and the map is
entirely unchanged. -/
theorem rateLimiter_blocked_leaves_map_unchanged
    (key : String) (now : Nat) (m : RateMap) (e : RateEntry)
    (hm : mapGet m key = some e) (hin : now ≤ e.resetTime) (hc : RATE_LIMIT ≤ e.count) :
    isRateLimited key now m = (true, m) :=
  isRateLimited_block key now m e hm (Nat.not_lt.mpr hin) hc

theorem rateLimiter_blocked_leaves_map_unchanged_witness :
    isRateLimited "1.2.3.4" 500 [("1.2.3.4", ⟨5, 1000⟩), ("9.9.9.9", ⟨2, 700⟩)]
      = (true, [("1.2.3.4", ⟨5, 1000⟩), ("9.9.9.9", ⟨2, 700⟩)]) :=
  rateLimiter_blocked_leaves_map_unchanged "1.2.3.4" 500 _ ⟨5, 1000⟩
    (by decide) (by decide) (by decide)

theorem mem_mapSet (m : RateMap) (k : String) (v : RateEntry) (p : String × RateEntry)
    (hp : p ∈ mapSet m k v) : p ∈ m ∨ p = (k, v) := by
  induction m with
  | nil =>
      simp [mapSet] at hp
      simp [hp]
  | cons q rest ih =>
      obtain ⟨k', v'⟩ := q
      by_cases h : k' = k
      · simp [mapSet, h] at hp
        rcases hp with h1 | h1
        · right
          simp [h1]
        · left
          simp [h1]
      · simp [mapSet, h] at hp
        rcases hp with h1 | h1
        · left
          simp [h1]
        · rcases ih h1 with h2 | h2
          · left
            simp [h2]
          · right
            exact h2

theorem countInvB_mapSet (m : RateMap) (k : String) (v : RateEntry)
    (hm : countInvB m = true) (h1 : 1 ≤ v.count) (h2 : v.count ≤ RATE_LIMIT) :
    countInvB (mapSet m k v) = true := by
  unfold countInvB at hm ⊢
  rw [List.all_eq_true] at hm ⊢
  intro p hp
  rcases mem_mapSet m k v p hp with h | h
  · exact hm p h
  · subst h
    simp [h1, h2]

/-- C2: a call of isRateLimited preserves the invariant that every entry of
the map has 1 ≤ count ≤ RATE_LIMIT, and when the key's entry is inside its
window (now ≤ resetTime) the call leaves that entry's resetTime unchanged:
the window is reset only strictly after resetTime, never slid. -/
theorem rateLimiter_count_invariant (key : String) (now : Nat) (m : RateMap)
    (hinv : countInvB m = true) :
    countInvB (isRateLimited key now m).2 = true ∧ resetNotSlid key now m = true := by
  constructor
  · cases hg : mapGet m key with
    | none =>
        rw [isRateLimited_first key now m hg]
        exact countInvB_mapSet m key _ hinv (show (1:Nat) ≤ 1 by decide)
          (show (1:Nat) ≤ 5 by decide)
    | some e =>
        by_cases hr : now > e.resetTime
        · rw [isRateLimited_reset key now m e hg hr]
          exact countInvB_mapSet m key _ hinv (show (1:Nat) ≤ 1 by decide)
            (show (1:Nat) ≤ 5 by decide)
        · by_cases hc : RATE_LIMIT ≤ e.count
          · rw [isRateLimited_block key now m e hg hr hc]
            exact hinv
          · rw [isRateLimited_incr key now m e hg hr (Nat.not_le.mp hc)]
            exact countInvB_mapSet m key _ hinv (Nat.le_add_left 1 e.count)
              (Nat.succ_le_of_lt (Nat.not_le.mp hc))
  · unfold resetNotSlid
    cases hg : mapGet m key with
    | none => simp
    | some e =>
        by_cases hr : now > e.resetTime
        · rw [isRateLimited_reset key now m e hg hr, mapGet_mapSet_self]
          simp [Nat.not_le.mpr hr]
        · by_cases hc : RATE_LIMIT ≤ e.count
          · rw [isRateLimited_block key now m e hg hr hc, hg]
            simp
          · rw [isRateLimited_incr key now m e hg hr (Nat.not_le.mp hc), mapGet_mapSet_self]
            simp

theorem rateLimiter_count_invariant_witness :
    countInvB (isRateLimited "1.2.3.4" 500 [("1.2.3.4", ⟨2, 1000⟩)]).2 = true
    ∧ resetNotSlid "1.2.3.4" 500 [("1.2.3.4", ⟨2, 1000⟩)] = true :=
  rateLimiter_count_invariant "1.2.3.4" 500 [("1.2.3.4", ⟨2, 1000⟩)] (by decide)

theorem jsTrim_length_le (l : List Char) : (jsTrim l).length ≤ l.length := by
  unfold jsTrim
  rw [List.length_reverse]
  calc ((l.dropWhile isJsSpace).reverse.dropWhile isJsSpace).length
      ≤ (l.dropWhile isJsSpace).reverse.length := (List.dropWhile_sublist isJsSpace).length_le
    _ = (l.dropWhile isJsSpace).length := List.length_reverse _
    _ ≤ l.length := (List.dropWhile_sublist isJsSpace).length_le

theorem northstowe_not_included_of_no_keyword (q : String)
    (hnk : Index.containsNorthstoweKeyword q = false) :
    includesL (lowerL q.data) "northstowe".data = false
    ∧ includesL (lowerL q.data) "north stowe".data = false := by
  unfold Index.containsNorthstoweKeyword at hnk
  rw [List.any_eq_false] at hnk
  constructor
  · have h := hnk "northstowe" (by decide)
    simp only [Bool.not_eq_true] at h
    rw [show lowerL "northstowe".data = "northstowe".data from by decide] at h
    exact h
  · have h := hnk "north stowe" (by decide)
    simp only [Bool.not_eq_true] at h
    rw [show lowerL "north stowe".data = "north stowe".data from by decide] at h
    exact h

/-- C3 counterexample: a query of 81 characters containing no Northstowe
keyword and no follow-up keyword on which the extended filter still returns
true, through the /is.*(open|available|ready)/i pattern. -/
theorem long_query_no_keyword_filter_counterexample :
    50 < ("A massive orange fungus is spreading and may open up a gap in our garden bed soon" : String).length
    ∧ Index.containsNorthstoweKeyword
        "A massive orange fungus is spreading and may open up a gap in our garden bed soon" = false
    ∧ Index.containsFollowUpKeyword
        "A massive orange fungus is spreading and may open up a gap in our garden bed soon" = false
    ∧ Index.isNorthstoweRelated
        "A massive orange fungus is spreading and may open up a gap in our garden bed soon" = true :=
  ⟨by decide, by decide, by decide, by decide⟩

/-- C3 amended: a query longer than 50 characters that contains no Northstowe
keyword, no follow-up keyword, and matches none of the local-service regex
patterns is classified as not related by the extended filter. -/
theorem long_query_no_keyword_no_pattern_filter_false (q : String)
    (hlen : 50 < q.length)
    (hnk : Index.containsNorthstoweKeyword q = false)
    (hfu : Index.containsFollowUpKeyword q = false)
    (hpat : Index.anyLocalServicePattern q = false) :
    Index.isNorthstoweRelated q = false := by
  obtain ⟨hn1, hn2⟩ := northstowe_not_included_of_no_keyword q hnk
  simp [Index.isNorthstoweRelated, hn1, hn2, hnk, hfu, hpat]

theorem long_query_no_keyword_no_pattern_filter_false_witness :
    50 < ("aaaa bbbb cccc dddd eeee ffff gggg jjjj kkkk llll mmmm" : String).length
    ∧ Index.isNorthstoweRelated "aaaa bbbb cccc dddd eeee ffff gggg jjjj kkkk llll mmmm" = false :=
  ⟨by decide, long_query_no_keyword_no_pattern_filter_false
    "aaaa bbbb cccc dddd eeee ffff gggg jjjj kkkk llll mmmm"
    (by decide) (by decide) (by decide) (by decide)⟩

/-- C4: a query of at most 50 characters that contains a follow-up keyword
(case-insensitively) is classified as related by the extended filter, whether
or not it contains a locality keyword. -/
theorem short_follow_up_filter_true (q : String)
    (hlen : q.length ≤ 50)
    (hfu : Index.containsFollowUpKeyword q = true) :
    Index.isNorthstoweRelated q = true := by
  have htrim : (jsTrim q.data).length ≤ 50 := le_trans (jsTrim_length_le q.data) hlen
  simp [Index.isNorthstoweRelated, htrim, hfu]

theorem short_follow_up_filter_true_witness :
    ("when is it?" : String).length ≤ 50
    ∧ Index.containsNorthstoweKeyword "when is it?" = false
    ∧ Index.isNorthstoweRelated "when is it?" = true :=
  ⟨by decide, by decide, short_follow_up_filter_true "when is it?" (by decide) (by decide)⟩

/-- C5: a query whose lowercasing contains the locality name northstowe is
classified as related, by the simple filter of chat.ts and by the extended
filter of index.tsx alike. -/
theorem northstowe_mention_filter_true (q : String)
    (h : includesL (lowerL q.data) "northstowe".data = true) :
    Chat.isNorthstoweRelated q = true ∧ Index.isNorthstoweRelated q = true := by
  constructor
  · simp [Chat.isNorthstoweRelated, h]
  · simp [Index.isNorthstoweRelated, h]

theorem northstowe_mention_filter_true_witness :
    includesL (lowerL ("Tell me about NORTHSTOWE please" : String).data) "northstowe".data = true
    ∧ Chat.isNorthstoweRelated "Tell me about NORTHSTOWE please" = true
    ∧ Index.isNorthstoweRelated "Tell me about NORTHSTOWE please" = true :=
  ⟨by decide,
   (northstowe_mention_filter_true "Tell me about NORTHSTOWE please" (by decide)).1,
   (northstowe_mention_filter_true "Tell me about NORTHSTOWE please" (by decide)).2⟩

/-- C6: a POST request that passes the rate gate and body validation but whose
message the relevance filter classifies out of scope gets HTTP 200 with the
canned refusal text and notRelated true, and makes no upstream call. -/
theorem off_topic_message_refused_without_upstream_call
    (key : String) (now : Nat) (m : RateMap) (s : String)
    (apiKey : Option String) (u : UpstreamOutcome)
    (hgate : (isRateLimited key now m).1 = false)
    (hvalid : s.isEmpty = false)
    (hrel : Chat.isNorthstoweRelated s = false) :
    (Chat.handler "POST" key now m (.str s) apiKey u).status = 200
    ∧ (Chat.handler "POST" key now m (.str s) apiKey u).response = some Chat.notRelatedResponse
    ∧ (Chat.handler "POST" key now m (.str s) apiKey u).notRelated = true
    ∧ (Chat.handler "POST" key now m (.str s) apiKey u).upstreamCalls = 0 := by
  simp [Chat.handler, hgate, hvalid, hrel]

theorem off_topic_message_refused_without_upstream_call_witness :
    (isRateLimited "1.2.3.4" 0 ([] : RateMap)).1 = false
    ∧ Chat.isNorthstoweRelated "hello" = false
    ∧ (Chat.handler "POST" "1.2.3.4" 0 [] (.str "hello") (some "sk-test") .nonAxiosError).status = 200
    ∧ (Chat.handler "POST" "1.2.3.4" 0 [] (.str "hello") (some "sk-test") .nonAxiosError).response
        = some Chat.notRelatedResponse
    ∧ (Chat.handler "POST" "1.2.3.4" 0 [] (.str "hello") (some "sk-test") .nonAxiosError).notRelated = true
    ∧ (Chat.handler "POST" "1.2.3.4" 0 [] (.str "hello") (some "sk-test") .nonAxiosError).upstreamCalls = 0 := by
  refine ⟨by decide, by decide, ?_⟩
  have h := off_topic_message_refused_without_upstream_call "1.2.3.4" 0 [] "hello"
    (some "sk-test") .nonAxiosError (by decide) (by decide) (by decide)
  exact ⟨h.1, h.2.1, h.2.2.1, h.2.2.2⟩

/-- C7: when the request reaches the upstream call and the call fails, the
handler's status and message follow the spec's mapping (401 and 403 to a 500
with an auth or permission message, 429 to a 429, everything else to a
generic 500), and exactly one upstream call is made: no failure is retried. -/
theorem upstream_failure_mapping
    (key : String) (now : Nat) (m : RateMap) (s : String) (k : String) (u : UpstreamOutcome)
    (hgate : (isRateLimited key now m).1 = false)
    (hvalid : s.isEmpty = false)
    (hrel : Chat.isNorthstoweRelated s = true)
    (hfail : u.isFailure = true) :
    (Chat.handler "POST" key now m (.str s) (some k) u).status = Chat.specFailureStatus u
    ∧ (Chat.handler "POST" key now m (.str s) (some k) u).error = some (Chat.specFailureError u)
    ∧ (Chat.handler "POST" key now m (.str s) (some k) u).upstreamCalls = 1 := by
  cases u with
  | success c => simp [UpstreamOutcome.isFailure] at hfail
  | nonAxiosError =>
      simp [Chat.handler, hgate, hvalid, hrel, Chat.specFailureStatus, Chat.specFailureError]
  | httpError st =>
      cases st with
      | none =>
          simp [Chat.handler, hgate, hvalid, hrel, Chat.specFailureStatus, Chat.specFailureError]
      | some n =>
          by_cases h1 : n = 401
          · subst h1
            simp [Chat.handler, hgate, hvalid, hrel, Chat.specFailureStatus, Chat.specFailureError]
          · by_cases h2 : n = 429
            · subst h2
              simp [Chat.handler, hgate, hvalid, hrel, Chat.specFailureStatus, Chat.specFailureError]
            · by_cases h3 : n = 403
              · subst h3
                simp [Chat.handler, hgate, hvalid, hrel, Chat.specFailureStatus, Chat.specFailureError]
              · simp [Chat.handler, hgate, hvalid, hrel, Chat.specFailureStatus,
                  Chat.specFailureError, h1, h2, h3]

theorem upstream_failure_mapping_witness :
    (Chat.handler "POST" "1.2.3.4" 0 [] (.str "northstowe bins") (some "sk-test")
        (.httpError (some 429))).status = Chat.specFailureStatus (.httpError (some 429))
    ∧ (Chat.handler "POST" "1.2.3.4" 0 [] (.str "northstowe bins") (some "sk-test")
        (.httpError (some 429))).error = some (Chat.specFailureError (.httpError (some 429)))
    ∧ (Chat.handler "POST" "1.2.3.4" 0 [] (.str "northstowe bins") (some "sk-test")
        (.httpError (some 429))).upstreamCalls = 1 :=
  upstream_failure_mapping "1.2.3.4" 0 [] "northstowe bins" "sk-test" (.httpError (some 429))
    (by decide) (by decide) (by decide) (by decide)

/-- C10: a POST request that passes the rate gate and carries message equal to
the empty string is rejected with 400 and the text Message is required, the
very same response the handler gives for a missing or non-string message. -/
theorem empty_string_message_rejected_like_missing
    (key : String) (now : Nat) (m : RateMap) (apiKey : Option String) (u : UpstreamOutcome)
    (hgate : (isRateLimited key now m).1 = false) :
    (Chat.handler "POST" key now m (.str "") apiKey u).status = 400
    ∧ (Chat.handler "POST" key now m (.str "") apiKey u).error = some "Message is required"
    ∧ Chat.handler "POST" key now m (.str "") apiKey u
        = Chat.handler "POST" key now m .missing apiKey u
    ∧ Chat.handler "POST" key now m (.str "") apiKey u
        = Chat.handler "POST" key now m .nonString apiKey u := by
  have he : ("" : String).isEmpty = true := rfl
  refine ⟨?_, ?_, ?_, ?_⟩ <;> simp [Chat.handler, hgate, he]

theorem empty_string_message_rejected_like_missing_witness :
    (Chat.handler "POST" "1.2.3.4" 0 [] (.str "") (some "sk-test") .nonAxiosError).status = 400
    ∧ (Chat.handler "POST" "1.2.3.4" 0 [] (.str "") (some "sk-test") .nonAxiosError).error
        = some "Message is required"
    ∧ Chat.handler "POST" "1.2.3.4" 0 [] (.str "") (some "sk-test") .nonAxiosError
        = Chat.handler "POST" "1.2.3.4" 0 [] .missing (some "sk-test") .nonAxiosError
    ∧ Chat.handler "POST" "1.2.3.4" 0 [] (.str "") (some "sk-test") .nonAxiosError
        = Chat.handler "POST" "1.2.3.4" 0 [] .nonString (some "sk-test") .nonAxiosError :=
  empty_string_message_rejected_like_missing "1.2.3.4" 0 [] (some "sk-test") .nonAxiosError
    (by decide)

theorem isPrefixL_append (l s : List Char) : isPrefixL l (l ++ s) = true := by
  induction l with
  | nil => rfl
  | cons a as ih => simp [isPrefixL, ih]

theorem isInfixL_of_isPrefixL (n h : List Char) (hp : isPrefixL n h = true) :
    isInfixL n h = true := by
  cases h with
  | nil => exact hp
  | cons c cs => simp [isInfixL, hp]

theorem strIncludes_append (q s : String) : strIncludes (q ++ s) q = true := by
  show isInfixL q.data (q ++ s).data = true
  have hd : (q ++ s).data = q.data ++ s.data := rfl
  rw [hd]
  exact isInfixL_of_isPrefixL _ _ (isPrefixL_append q.data s.data)

/-- C9 counterexample: the index.tsx enhancer's meeting branch replaces the
query by a fixed site-restricted search string, so for the query Meeting? the
output does not contain the original query as a substring. -/
theorem enhancer_meeting_branch_counterexample :
    strIncludes (Index.enhanceQueryForNorthstowe "01/01/2025" "Meeting?") "Meeting?" = false := by
  decide

/-- C9 amended: the chat.ts enhancer always appends context after the query,
so its output contains the original query as a substring for every query; the
index.tsx enhancer does so whenever the query does not contain meeting or
council (case-insensitively). The meeting/council branch of the index.tsx
enhancer instead replaces the query by a fixed search string. -/
theorem enhancer_output_contains_query (q d : String) :
    strIncludes (Chat.enhanceQueryForNorthstowe q) q = true
    ∧ ((includesL (lowerL q.data) "meeting".data
          || includesL (lowerL q.data) "council".data) = false →
        strIncludes (Index.enhanceQueryForNorthstowe d q) q = true) := by
  constructor
  · exact strIncludes_append q _
  · intro h
    unfold Index.enhanceQueryForNorthstowe
    rw [h]
    simp only [Bool.false_eq_true, if_false]
    split
    · exact strIncludes_append q _
    · split
      · exact strIncludes_append q _
      · split
        · exact strIncludes_append q _
        · exact strIncludes_append q _

theorem enhancer_output_contains_query_witness :
    strIncludes (Chat.enhanceQueryForNorthstowe "parks") "parks" = true
    ∧ strIncludes (Index.enhanceQueryForNorthstowe "02/02/2025" "parks") "parks" = true :=
  ⟨(enhancer_output_contains_query "parks" "02/02/2025").1,
   (enhancer_output_contains_query "parks" "02/02/2025").2 (by decide)⟩
